import Mathlib

/-!
# Verification of the TrguiNG lifecycle/coordination core

Shallow embedding of the host-side lifecycle code of the TrguiNG desktop
application (`src-tauri/src/main.rs` and `src-tauri/src/tray.rs`) and proofs
about it.

The embedding has three parts:

* a labelled transition system for the shutdown handshake `close_main`
  (tray.rs), where the frontend may deliver any number of `frontend-done`
  events concurrently with the backend task;
* a functional model of `setup` (main.rs), parameterised by the environment
  outcomes (listen success, send success).  The `ipc::Ipc` type is not part of
  the excerpted sources, so its operations are modelled from the spec;
* trace models of the tray controller (`toggle_main_window`, `exit`,
  `create_tray`) and of the `run` event handler in `main`.
-/

/-! ## Shutdown coordinator (`close_main`, tray.rs lines 97-108)

`close_main` registers a `frontend-done` handler holding
`Arc<Mutex<Option<Sender>>>`, emits `exit-requested`, awaits the oneshot
receiver, and only then closes the window.  The LTS below interleaves the
backend task's program points with environment deliveries of `frontend-done`.
-/

/-- Events observable in a `close_main` execution. -/
inductive CmEv
  /-- the `frontend-done` handler is registered (`window.listen`) -/
  | register
  /-- `window.emit("exit-requested", ())` -/
  | emitExitRequested
  /-- a `frontend-done` delivery finds the sender present, takes it and
  fires the oneshot signal (`tx.send(()).ok()`) -/
  | ackFired
  /-- a `frontend-done` delivery finds the sender already taken and is
  discarded (the `if let Some` arm does not run) -/
  | ackDiscarded
  /-- `rx.await` returns -/
  | awaitDone
  /-- `window.close().ok()` -/
  | closeWindow
deriving DecidableEq

/-- Program counter of the `close_main` task. -/
inductive CmPc
  /-- before `window.listen` -/
  | start
  /-- handler registered, before `window.emit` -/
  | registered
  /-- `exit-requested` emitted, task suspended on `rx.await` -/
  | waiting
  /-- `rx.await` returned, before `window.close` -/
  | resumed
  /-- window closed -/
  | closed
deriving DecidableEq

/-- Global state of one `close_main` attempt: the task position, whether the
`Option<Sender>` in the handler still holds the sender, whether the oneshot
signal has been fired, and the trace of events so far (newest first). -/
structure CmState where
  pc : CmPc
  txAvail : Bool
  sent : Bool
  trace : List CmEv
deriving DecidableEq

/-- Initial state of a `close_main` attempt. -/
def cmInit : CmState := ⟨CmPc.start, true, false, []⟩

/-- Interleaved small-step semantics of `close_main`: the task steps in
program order (`register`, `emit`, `resume`, `close`), and the environment
may deliver a `frontend-done` event at any time once the handler is
registered.  `resume` is enabled only after the oneshot has been fired,
because `rx.await` completes only after `tx.send`. -/
inductive CmStep : CmState → CmState → Prop
  | register : ∀ s, s.pc = CmPc.start →
      CmStep s { s with pc := CmPc.registered, trace := CmEv.register :: s.trace }
  | emit : ∀ s, s.pc = CmPc.registered →
      CmStep s { s with pc := CmPc.waiting, trace := CmEv.emitExitRequested :: s.trace }
  | deliverFirst : ∀ s, s.pc ≠ CmPc.start → s.txAvail = true →
      CmStep s { s with txAvail := false, sent := true, trace := CmEv.ackFired :: s.trace }
  | deliverLate : ∀ s, s.pc ≠ CmPc.start → s.txAvail = false →
      CmStep s { s with trace := CmEv.ackDiscarded :: s.trace }
  | resume : ∀ s, s.pc = CmPc.waiting → s.sent = true →
      CmStep s { s with pc := CmPc.resumed, trace := CmEv.awaitDone :: s.trace }
  | close : ∀ s, s.pc = CmPc.resumed →
      CmStep s { s with pc := CmPc.closed, trace := CmEv.closeWindow :: s.trace }

/-- Reachability from the initial state of a `close_main` attempt. -/
def CmReachable (s : CmState) : Prop := Relation.ReflTransGen CmStep cmInit s

/-- Boolean test for the `ackFired` event. -/
def isAckFired : CmEv → Bool
  | CmEv.ackFired => true
  | _ => false

/-- Number of times the oneshot signal was fired in a trace. -/
def countAck (l : List CmEv) : Nat := l.countP isAckFired

/-- Inductive invariant of the `close_main` transition system. -/
def CmInv (s : CmState) : Prop :=
  (s.sent = true → CmEv.ackFired ∈ s.trace) ∧
  (countAck s.trace = if s.txAvail then 0 else 1) ∧
  ((s.pc = CmPc.resumed ∨ s.pc = CmPc.closed) → s.sent = true) ∧
  ((s.pc = CmPc.waiting ∨ s.pc = CmPc.resumed ∨ s.pc = CmPc.closed) →
      CmEv.emitExitRequested ∈ s.trace) ∧
  (CmEv.closeWindow ∈ s.trace →
      ∃ l1 l2, s.trace = l1 ++ CmEv.closeWindow :: l2 ∧ CmEv.ackFired ∈ l2)

lemma cmInv_init : CmInv cmInit := by
  refine ⟨?_, ?_, ?_, ?_, ?_⟩ <;> simp [cmInit, countAck]

/-- Prepending a non-`closeWindow` event preserves the close-after-ack
split property of a trace. -/
lemma cmSplit_cons {e : CmEv} (hne : e ≠ CmEv.closeWindow) {tr : List CmEv}
    (h : CmEv.closeWindow ∈ tr →
      ∃ l1 l2, tr = l1 ++ CmEv.closeWindow :: l2 ∧ CmEv.ackFired ∈ l2) :
    CmEv.closeWindow ∈ e :: tr →
      ∃ l1 l2, e :: tr = l1 ++ CmEv.closeWindow :: l2 ∧ CmEv.ackFired ∈ l2 := by
  intro hmem
  rcases List.mem_cons.mp hmem with he | htr
  · exact absurd he.symm hne
  · obtain ⟨l1, l2, heq, hack⟩ := h htr
    exact ⟨e :: l1, l2, by simp [heq], hack⟩

lemma cmInv_step {s s' : CmState} (h : CmStep s s') (hI : CmInv s) : CmInv s' := by
  obtain ⟨h1, h2, h3, h4, h5⟩ := hI
  cases h with
  | register hpc =>
      refine ⟨fun hs => List.mem_cons_of_mem _ (h1 hs), ?_, ?_, ?_, ?_⟩
      · simpa [countAck, List.countP_cons, isAckFired] using h2
      · intro hc; simp at hc
      · intro hc; simp at hc
      · exact cmSplit_cons (by simp) h5
  | emit hpc =>
      refine ⟨fun hs => List.mem_cons_of_mem _ (h1 hs), ?_, ?_, ?_, ?_⟩
      · simpa [countAck, List.countP_cons, isAckFired] using h2
      · intro hc; simp at hc
      · intro _; exact List.mem_cons_self _ _
      · exact cmSplit_cons (by simp) h5
  | deliverFirst hreg hav =>
      refine ⟨fun _ => List.mem_cons_self _ _, ?_, fun _ => rfl, ?_, ?_⟩
      · have h0 : countAck s.trace = 0 := by simpa [hav] using h2
        simp [countAck, List.countP_cons, isAckFired] at h0 ⊢
        exact h0
      · intro hc; exact List.mem_cons_of_mem _ (h4 hc)
      · exact cmSplit_cons (by simp) h5
  | deliverLate hreg hav =>
      refine ⟨fun hs => List.mem_cons_of_mem _ (h1 hs), ?_, fun hc => h3 hc, ?_, ?_⟩
      · have h0 : countAck s.trace = 1 := by simpa [hav] using h2
        simp only [countAck, List.countP_cons, isAckFired] at h0 ⊢
        simpa [countAck, hav] using h0
      · intro hc; exact List.mem_cons_of_mem _ (h4 hc)
      · exact cmSplit_cons (by simp) h5
  | resume hpc hs =>
      refine ⟨fun hs' => List.mem_cons_of_mem _ (h1 hs'), ?_, fun _ => hs, ?_, ?_⟩
      · simpa [countAck, List.countP_cons, isAckFired] using h2
      · intro _; exact List.mem_cons_of_mem _ (h4 (Or.inl hpc))
      · exact cmSplit_cons (by simp) h5
  | close hpc =>
      have hsent : s.sent = true := h3 (Or.inl hpc)
      refine ⟨fun hs' => List.mem_cons_of_mem _ (h1 hs'), ?_, fun _ => hsent, ?_, ?_⟩
      · simpa [countAck, List.countP_cons, isAckFired] using h2
      · intro _; exact List.mem_cons_of_mem _ (h4 (Or.inr (Or.inl hpc)))
      · intro _; exact ⟨[], s.trace, rfl, h1 hsent⟩

lemma cmInv_reachable (s : CmState) (h : CmReachable s) : CmInv s := by
  induction h with
  | refl => exact cmInv_init
  | tail hab hbc ih => exact cmInv_step hbc ih

/-! ### Concrete executions of the handshake, used as witnesses -/

/-- State after registering the handler. -/
def cmS1 : CmState := ⟨CmPc.registered, true, false, [CmEv.register]⟩

/-- State after emitting `exit-requested`; the task is suspended. -/
def cmS2 : CmState :=
  ⟨CmPc.waiting, true, false, [CmEv.emitExitRequested, CmEv.register]⟩

/-- State after the first `frontend-done` delivery fired the signal. -/
def cmS3 : CmState :=
  ⟨CmPc.waiting, false, true,
   [CmEv.ackFired, CmEv.emitExitRequested, CmEv.register]⟩

/-- State after `rx.await` returned. -/
def cmS4 : CmState :=
  ⟨CmPc.resumed, false, true,
   [CmEv.awaitDone, CmEv.ackFired, CmEv.emitExitRequested, CmEv.register]⟩

/-- Final state: window closed. -/
def cmS5 : CmState :=
  ⟨CmPc.closed, false, true,
   [CmEv.closeWindow, CmEv.awaitDone, CmEv.ackFired, CmEv.emitExitRequested,
    CmEv.register]⟩

lemma cmStep01 : CmStep cmInit cmS1 := CmStep.register cmInit rfl

lemma cmStep12 : CmStep cmS1 cmS2 := CmStep.emit cmS1 rfl

lemma cmStep23 : CmStep cmS2 cmS3 := CmStep.deliverFirst cmS2 (by decide) rfl

lemma cmStep34 : CmStep cmS3 cmS4 := CmStep.resume cmS3 rfl rfl

lemma cmStep45 : CmStep cmS4 cmS5 := CmStep.close cmS4 rfl

lemma cmReach3 : CmReachable cmS3 :=
  Relation.ReflTransGen.head cmStep01 <|
    Relation.ReflTransGen.head cmStep12 <|
      Relation.ReflTransGen.head cmStep23 Relation.ReflTransGen.refl

lemma cmReach5 : CmReachable cmS5 :=
  Relation.ReflTransGen.head cmStep01 <|
    Relation.ReflTransGen.head cmStep12 <|
      Relation.ReflTransGen.head cmStep23 <|
        Relation.ReflTransGen.head cmStep34 <|
          Relation.ReflTransGen.head cmStep45 Relation.ReflTransGen.refl

/-- C1: in every reachable state of the `close_main` transition system, under
any interleaving of concurrent tasks, the `exit-requested` event has been
emitted whenever the coordinator task is suspended on the acknowledgement,
and whenever the window close has been performed there is a matching
`frontend-done` acknowledgement that fired strictly earlier in the trace —
the close never precedes the acknowledgement. -/
theorem c1_close_strictly_after_ack (s : CmState) (h : CmReachable s) :
    (s.pc = CmPc.waiting → CmEv.emitExitRequested ∈ s.trace) ∧
    (CmEv.closeWindow ∈ s.trace →
      ∃ l1 l2, s.trace = l1 ++ CmEv.closeWindow :: l2 ∧ CmEv.ackFired ∈ l2) := by
  obtain ⟨-, -, -, h4, h5⟩ := cmInv_reachable s h
  exact ⟨fun hpc => h4 (Or.inl hpc), h5⟩

/-- Witness for C1 at the concrete complete handshake execution `cmS5`. -/
theorem c1_close_strictly_after_ack_witness :
    CmReachable cmS5 ∧
    ((cmS5.pc = CmPc.waiting → CmEv.emitExitRequested ∈ cmS5.trace) ∧
     (CmEv.closeWindow ∈ cmS5.trace →
       ∃ l1 l2, cmS5.trace = l1 ++ CmEv.closeWindow :: l2 ∧
         CmEv.ackFired ∈ l2)) :=
  ⟨cmReach5, c1_close_strictly_after_ack cmS5 cmReach5⟩

/-- C5: within one handshake attempt, for any number of `frontend-done`
deliveries, the one-time signal fires at most once (only the first delivery
fires it), and once the sender has been taken every further `frontend-done`
delivery is discarded with no effect on the handshake state: the task
position, the sender slot and the signal are unchanged. -/
theorem c5_first_ack_fires_rest_discarded (s : CmState) (h : CmReachable s) :
    countAck s.trace ≤ 1 ∧
    (∀ s', s.txAvail = false → CmStep s s' →
      s'.trace = CmEv.ackDiscarded :: s.trace →
      s'.pc = s.pc ∧ s'.txAvail = false ∧ s'.sent = s.sent) := by
  constructor
  · have h2 := (cmInv_reachable s h).2.1
    cases hx : s.txAvail <;> rw [hx] at h2 <;> simp [h2]
  · intro s' hav hstep htr
    cases hstep with
    | register hpc => simp at htr
    | emit hpc => simp at htr
    | deliverFirst hreg hav' => simp at htr
    | deliverLate hreg hav' => exact ⟨rfl, hav, rfl⟩
    | resume hpc hs => simp at htr
    | close hpc => simp at htr

/-- Witness for C5 at the concrete state `cmS3`, where the sender has
already been taken by a first delivery. -/
theorem c5_first_ack_fires_rest_discarded_witness :
    CmReachable cmS3 ∧
    (countAck cmS3.trace ≤ 1 ∧
     (∀ s', cmS3.txAvail = false → CmStep cmS3 s' →
       s'.trace = CmEv.ackDiscarded :: cmS3.trace →
       s'.pc = cmS3.pc ∧ s'.txAvail = false ∧ s'.sent = cmS3.sent)) :=
  ⟨cmReach3, c5_first_ack_fires_rest_discarded cmS3 cmReach3⟩

/-! ## Single-instance channel and `setup` (main.rs lines 40-98)

The `ipc` module is not part of the excerpted sources; the `Ipc` operations
below are modelled from the spec (section 4.1, Single-Instance Channel).
The `setup` function itself is translated from `main.rs`.  Environment
outcomes (whether the listen attempt and the send succeed) are parameters.
-/

/-- Modelled from the spec: the Single-Instance Channel state.  `ipc.rs` is
not in the excerpt; per the spec the Listener State is Listening only after a
successful `listen`, and `start`/`stop` are idempotent controls over whether
the channel is actively accepting, with `stop` releasing the endpoint. -/
structure Ipc where
  listening : Bool
  accepting : Bool
deriving DecidableEq

/-- Modelled from the spec: `Ipc::new()` — freshly created channel, Unbound. -/
def Ipc.new : Ipc := ⟨false, false⟩

/-- Modelled from the spec: `try_bind` classifies the process as Primary or
Secondary from the bind outcome (an environment parameter) and does not
transition the Listener State to Listening. -/
def Ipc.try_bind (i : Ipc) (bindOk : Bool) : Ipc × Bool := (i, bindOk)

/-- Modelled from the spec: `listen` transitions the Listener State to
Listening exactly when accepting connections succeeds (an environment
parameter); on failure the state is unchanged. -/
def Ipc.listen (i : Ipc) (ok : Bool) : Ipc × Bool :=
  if ok then ({ i with listening := true }, true) else (i, false)

/-- Modelled from the spec: `start` re-arms active accepting. -/
def Ipc.start (i : Ipc) : Ipc := { i with accepting := true }

/-- Modelled from the spec: `stop` stops accepting and releases the endpoint,
so the Listener State is no longer Listening. -/
def Ipc.stop (i : Ipc) : Ipc := { i with listening := false, accepting := false }

/-- Modelled from the spec: `send` transmits the Argument Batch; its outcome
is an environment parameter and the channel state is unchanged. -/
def Ipc.send (i : Ipc) (_batch : List String) (ok : Bool) : Ipc × Bool := (i, ok)

/-- Events observable in a `setup` execution (including its spawned task). -/
inductive SetupEv
  /-- `println!("{}", args["help"]...)` -/
  | printHelp (usage : String)
  /-- `main_window.close()` (or the help-path `close`) -/
  | closeWindow
  /-- `poller.set_app_handle(&app)` -/
  | setAppHandle
  /-- `listener.listen(app.clone()).await` with its outcome -/
  | listenAttempt (ok : Bool)
  /-- `listener.start()` in the failed-listen recovery -/
  | ipcStart
  /-- `listener.stop()` in the failed-listen recovery -/
  | ipcStop
  /-- `listener.send(&torrents).await` with its outcome -/
  | sendArgs (batch : List String) (ok : Bool)
  /-- the `println!("Unable to send args to listener: ...")` branch -/
  | logSendError
  /-- `app.listen_global("listener-start", ...)` -/
  | registerListenerStart
  /-- `main_window.show()` -/
  | showWindow
deriving DecidableEq

/-- Result, event trace and successive channel states of one `setup` run. -/
structure SetupOut where
  result : Except String Unit
  events : List SetupEv
  ipcStates : List Ipc

/-- Model of `setup` (main.rs lines 40-98).  `helpText` is `some usage` when
the `help` flag is among the matched arguments; `torrents` is the extracted
Argument Batch; `listenOk`/`sendOk` are the environment outcomes of the
listen and send attempts; `ipc0` is the channel state handed over from
`main` (after `try_bind`).  The returned events include the spawned async
task's events, which run after `setup` itself has returned `Ok(())`. -/
def setup (helpText : Option String) (torrents : List String)
    (listenOk sendOk : Bool) (ipc0 : Ipc) : SetupOut :=
  match helpText with
  | some usage =>
      { result := Except.ok ()
        events := [SetupEv.printHelp usage, SetupEv.closeWindow]
        ipcStates := [ipc0] }
  | none =>
      let (ipc1, lres) := ipc0.listen listenOk
      let (ipc2, tearEvs) :=
        if lres then (ipc1, ([] : List SetupEv))
        else (Ipc.stop (Ipc.start ipc1), [SetupEv.ipcStart, SetupEv.ipcStop])
      let (ipc3, sres) := ipc2.send torrents sendOk
      let logEvs := if sres then ([] : List SetupEv) else [SetupEv.logSendError]
      let finEvs :=
        if ipc3.listening then [SetupEv.registerListenerStart, SetupEv.showWindow]
        else [SetupEv.closeWindow]
      { result := Except.ok ()
        events := SetupEv.setAppHandle :: SetupEv.listenAttempt lres ::
          (tearEvs ++ SetupEv.sendArgs torrents sres :: (logEvs ++ finEvs))
        ipcStates := [ipc0, ipc1] ++
          (if lres then [] else [Ipc.start ipc1, Ipc.stop (Ipc.start ipc1)]) ++
          [ipc3] }

/-- Boolean test for a `sendArgs` event. -/
def isSendEv : SetupEv → Bool
  | SetupEv.sendArgs _ _ => true
  | _ => false

/-- The startup composition from `main` (main.rs lines 100-103 and 117): a
freshly created channel, `try_bind`, then `setup` on the resulting state. -/
def mainStartup (helpText : Option String) (torrents : List String)
    (listenOk sendOk bindOk : Bool) : SetupOut :=
  setup helpText torrents listenOk sendOk (Ipc.try_bind Ipc.new bindOk).1

/-- C2: whenever the listen attempt fails at startup, `setup` recovers
locally: it still returns `Ok`, tears the listener down (`start` then
`stop`), never shows the main window (the window is closed instead), and no
channel state arising during the run has `listening = true`. -/
theorem c2_listen_failure_recovered (torrents : List String)
    (sendOk bindOk : Bool) :
    (mainStartup none torrents false sendOk bindOk).result = Except.ok () ∧
    SetupEv.ipcStart ∈ (mainStartup none torrents false sendOk bindOk).events ∧
    SetupEv.ipcStop ∈ (mainStartup none torrents false sendOk bindOk).events ∧
    SetupEv.showWindow ∉ (mainStartup none torrents false sendOk bindOk).events ∧
    SetupEv.closeWindow ∈ (mainStartup none torrents false sendOk bindOk).events ∧
    ∀ st ∈ (mainStartup none torrents false sendOk bindOk).ipcStates,
      st.listening = false := by
  cases sendOk <;>
    simp [mainStartup, setup, Ipc.new, Ipc.try_bind, Ipc.listen, Ipc.send,
      Ipc.start, Ipc.stop]

/-- C7 counterexample: in the execution where the Primary's listen attempt
succeeds (the process reaches Listening and the window is shown), `setup`
still invokes the channel's `send` operation on the Argument Batch, contrary
to the claim that a Listening Primary does not invoke `send`. -/
theorem c7_counterexample :
    SetupEv.listenAttempt true ∈
      (setup none ["movie.torrent"] true true Ipc.new).events ∧
    SetupEv.showWindow ∈
      (setup none ["movie.torrent"] true true Ipc.new).events ∧
    SetupEv.sendArgs ["movie.torrent"] true ∈
      (setup none ["movie.torrent"] true true Ipc.new).events := by
  decide

/-- C7 amended: the Argument Batch is consumed by exactly one `send`
invocation in every non-help startup, regardless of role — a Primary that
reaches Listening sends the batch to its own listener (which is how the
batch is executed locally), while a Secondary or degraded Primary sends it
best-effort; the batch is never sent twice, and in the help path it is
never sent at all. -/
theorem c7_amended_send_exactly_once (torrents : List String)
    (listenOk sendOk : Bool) (ipc0 : Ipc) :
    (setup none torrents listenOk sendOk ipc0).events.countP isSendEv = 1 ∧
    ∀ usage,
      (setup (some usage) torrents listenOk sendOk ipc0).events.countP
        isSendEv = 0 := by
  cases listenOk <;> cases sendOk <;>
    simp [setup, Ipc.listen, Ipc.send, Ipc.start, Ipc.stop, isSendEv,
      List.countP_cons, List.countP_append]

/-- C8: when the help flag is present, `setup` prints the usage text, closes
the main window and returns `Ok` without entering the lifecycle state
machine: no listen attempt, no send of the Argument Batch, no poller
activation and no show of the window, and the channel state is untouched. -/
theorem c8_help_short_circuits (usage : String) (torrents : List String)
    (listenOk sendOk : Bool) (ipc0 : Ipc) :
    (setup (some usage) torrents listenOk sendOk ipc0).result = Except.ok () ∧
    (setup (some usage) torrents listenOk sendOk ipc0).events =
      [SetupEv.printHelp usage, SetupEv.closeWindow] ∧
    (∀ b, SetupEv.listenAttempt b ∉
      (setup (some usage) torrents listenOk sendOk ipc0).events) ∧
    (∀ t b, SetupEv.sendArgs t b ∉
      (setup (some usage) torrents listenOk sendOk ipc0).events) ∧
    SetupEv.setAppHandle ∉
      (setup (some usage) torrents listenOk sendOk ipc0).events ∧
    SetupEv.showWindow ∉
      (setup (some usage) torrents listenOk sendOk ipc0).events ∧
    (setup (some usage) torrents listenOk sendOk ipc0).ipcStates = [ipc0] := by
  simp [setup]

/-- C9: a failure of the channel's `send` is logged and swallowed: `setup`
still returns `Ok`, its result is the same as on send success, the show or
close decision for the main window is exactly the decision taken on send
success, and the channel states are unaffected by the send outcome. -/
theorem c9_send_failure_swallowed (torrents : List String) (listenOk : Bool)
    (ipc0 : Ipc) :
    (setup none torrents listenOk false ipc0).result = Except.ok () ∧
    (setup none torrents listenOk false ipc0).result =
      (setup none torrents listenOk true ipc0).result ∧
    SetupEv.logSendError ∈ (setup none torrents listenOk false ipc0).events ∧
    (SetupEv.showWindow ∈ (setup none torrents listenOk false ipc0).events ↔
      SetupEv.showWindow ∈ (setup none torrents listenOk true ipc0).events) ∧
    (SetupEv.closeWindow ∈ (setup none torrents listenOk false ipc0).events ↔
      SetupEv.closeWindow ∈ (setup none torrents listenOk true ipc0).events) ∧
    (setup none torrents listenOk false ipc0).ipcStates =
      (setup none torrents listenOk true ipc0).ipcStates := by
  cases listenOk <;> simp [setup, Ipc.listen, Ipc.send]

/-! ## Tray controller (`tray.rs`) and the `run` handler (`main.rs`)

Sequential traces of `toggle_main_window` (tray.rs lines 57-82), `exit`
(tray.rs lines 84-95) and `close_main` as called from them, plus a state
model of window existence/visibility and the toggle item's label. -/

/-- Events observable in the tray controller's operations. -/
inductive TrayEv
  /-- `window.listen("frontend-done", ...)` inside `close_main` -/
  | register
  /-- `window.emit("exit-requested", ())` inside `close_main` -/
  | emitExitRequested
  /-- `rx.await` returns inside `close_main` -/
  | awaitAck
  /-- `window.close().ok()` inside `close_main` -/
  | closeWindow
  /-- `tray_handle.get_item("showhide").set_title(title)` -/
  | setLabel (title : String)
  /-- `WindowBuilder::new(...).build().unwrap()` -/
  | buildWindow
  /-- `window.set_title("Transmission Remote GUI")` -/
  | setWindowTitle (title : String)
  /-- `window.set_focus()` -/
  | setFocus
  /-- `listener_state.0.lock().await` in `exit` -/
  | lockListener
  /-- `listener.stop()` in `exit` -/
  | ipcStop
  /-- `app.exit(code)` -/
  | appExit (code : Nat)
deriving DecidableEq

/-- The sequential event trace of one completed `close_main` call
(tray.rs lines 97-108). -/
def close_main_evs : List TrayEv :=
  [TrayEv.register, TrayEv.emitExitRequested, TrayEv.awaitAck,
   TrayEv.closeWindow]

/-- Trace of the spawned task of `toggle_main_window` when a main window
exists (tray.rs lines 59-67): `close_main`, then set the label. -/
def toggle_hide_evs : List TrayEv :=
  close_main_evs ++ [TrayEv.setLabel "Show\x00"]

/-- Trace of `toggle_main_window` when no main window exists (tray.rs lines
69-79): build the window, set the label, title and focus the window. -/
def toggle_show_evs : List TrayEv :=
  [TrayEv.buildWindow, TrayEv.setLabel "Hide\x00",
   TrayEv.setWindowTitle "Transmission Remote GUI", TrayEv.setFocus]

/-- Trace of the spawned task of `exit` (tray.rs lines 84-95): `close_main`
when a window exists, then lock the listener, `stop()`, `app.exit(0)`. -/
def exit_evs (hasWindow : Bool) : List TrayEv :=
  (if hasWindow then close_main_evs else []) ++
  [TrayEv.lockListener, TrayEv.ipcStop, TrayEv.appExit 0]

/-- Menu of `create_tray` (tray.rs lines 27-36): item ids with their initial
titles. -/
def create_tray : List (String × String) := [("showhide", "Hide"), ("quit", "Quit")]

/-- Window-and-label state observed by the tray controller. -/
structure TrayState where
  windowExists : Bool
  windowVisible : Bool
  label : String
deriving DecidableEq

/-- State at startup: the main window from the app configuration exists and
is visible, and the toggle item carries the initial `create_tray` title. -/
def initTrayState : TrayState := ⟨true, true, "Hide"⟩

/-- State transition and trace of `toggle_main_window` (tray.rs lines
57-82): dispatch on whether a main window exists; when it does, run
`close_main` and set the label to `"Show\0"`; otherwise build a new window
(created visible, then focused) and set the label to `"Hide\0"`. -/
def toggle_main_window (s : TrayState) : TrayState × List TrayEv :=
  if s.windowExists then
    (⟨false, false, "Show\x00"⟩, toggle_hide_evs)
  else
    (⟨true, true, "Hide\x00"⟩, toggle_show_evs)

/-- State after `n` completed toggle operations from startup. -/
def iterToggle : Nat → TrayState
  | 0 => initTrayState
  | n + 1 => (toggle_main_window (iterToggle n)).1

/-- Boolean test for a `setLabel` event. -/
def isSetLabelEv : TrayEv → Bool
  | TrayEv.setLabel _ => true
  | _ => false

/-- Boolean test for the `closeWindow` event. -/
def isCloseWindowEv : TrayEv → Bool
  | TrayEv.closeWindow => true
  | _ => false

/-- Boolean test for the `buildWindow` event. -/
def isBuildWindowEv : TrayEv → Bool
  | TrayEv.buildWindow => true
  | _ => false

/-- Boolean test for the `setFocus` event. -/
def isSetFocusEv : TrayEv → Bool
  | TrayEv.setFocus => true
  | _ => false

/-- Boolean test for the `ipcStop` event. -/
def isIpcStopEv : TrayEv → Bool
  | TrayEv.ipcStop => true
  | _ => false

/-- Boolean test for an `appExit` event. -/
def isAppExitEv : TrayEv → Bool
  | TrayEv.appExit _ => true
  | _ => false

/-- Boolean test for the `emitExitRequested` event. -/
def isEmitEv : TrayEv → Bool
  | TrayEv.emitExitRequested => true
  | _ => false

/-- Boolean test for the `awaitAck` event. -/
def isAwaitAckEv : TrayEv → Bool
  | TrayEv.awaitAck => true
  | _ => false

/-- Run-loop events of the tauri application, as matched by the closure
passed to `run` in `main.rs` lines 120-125. -/
inductive RunEvent
  /-- `tauri::RunEvent::ExitRequested { api, .. }` -/
  | exitRequested
  /-- any other run event (the `_` arm) -/
  | other
deriving DecidableEq

/-- The `run` closure of `main` (main.rs lines 120-125): returns whether
`api.prevent_exit()` is called for the given event. -/
def run_event_handler : RunEvent → Bool
  | RunEvent.exitRequested => true
  | RunEvent.other => false

/-- C3 counterexample: after the toggle-to-show operation (two toggles from
startup: hide, then show), a main window exists and is visible, yet the
label set by the code is `"Hide\0"` — the four-character string `"Hide"`
followed by a NUL terminator — so it is not exactly the string `"Hide"`,
refuting the claimed biconditional at this concrete state. -/
theorem c3_counterexample :
    (iterToggle 2).windowExists = true ∧
    (iterToggle 2).windowVisible = true ∧
    (iterToggle 2).label ≠ "Hide" ∧
    (iterToggle 2).label = "Hide\x00" := by
  decide

/-- C3 amended: after every visibility-changing toggle operation, the label
read up to the trailing NUL terminator that `set_title` appends is `"Hide"`
if and only if a main window currently exists and is visible, and it is
`"Show"` (again up to the trailing NUL) otherwise (the initial `create_tray`
title is the plain `"Hide"`, the titles set on toggles are `"Hide\0"` and
`"Show\0"`). -/
theorem c3_amended_label_tracks_visibility (n : Nat) :
    (((iterToggle n).label = "Hide" ∨ (iterToggle n).label = "Hide\x00") ↔
      ((iterToggle n).windowExists = true ∧
       (iterToggle n).windowVisible = true)) ∧
    (¬ ((iterToggle n).windowExists = true ∧
        (iterToggle n).windowVisible = true) →
      ((iterToggle n).label = "Show" ∨ (iterToggle n).label = "Show\x00")) := by
  cases n with
  | zero => decide
  | succ m =>
      have hstep : iterToggle (m + 1) = (toggle_main_window (iterToggle m)).1 :=
        rfl
      rw [hstep]
      cases hw : (iterToggle m).windowExists <;>
        simp [toggle_main_window, hw]

/-- Witness for C3 amended after one toggle from startup, where no window
exists and the label reads `"Show"` up to the trailing NUL. -/
theorem c3_amended_label_tracks_visibility_witness :
    (((iterToggle 1).label = "Hide" ∨ (iterToggle 1).label = "Hide\x00") ↔
      ((iterToggle 1).windowExists = true ∧
       (iterToggle 1).windowVisible = true)) ∧
    (¬ ((iterToggle 1).windowExists = true ∧
        (iterToggle 1).windowVisible = true) →
      ((iterToggle 1).label = "Show" ∨ (iterToggle 1).label = "Show\x00")) :=
  c3_amended_label_tracks_visibility 1

/-- C4: for a tray-quit action, the `exit` task performs the shutdown
handshake on the current window when one exists (emit, acknowledgement,
close — in that order), then calls the channel's `stop()`, and only then
exits the process, with exit code 0 as the last event; and the `run`
handler intercepts (prevents) generic exit-requested events, so the process
never exits through that path mid-handshake. -/
theorem c4_quit_stops_channel_then_exits :
    (exit_evs true).getLast? = some (TrayEv.appExit 0) ∧
    (exit_evs false).getLast? = some (TrayEv.appExit 0) ∧
    (exit_evs true).countP isAppExitEv = 1 ∧
    (exit_evs false).countP isAppExitEv = 1 ∧
    (exit_evs true).findIdx isIpcStopEv < (exit_evs true).findIdx isAppExitEv ∧
    (exit_evs false).findIdx isIpcStopEv <
      (exit_evs false).findIdx isAppExitEv ∧
    (exit_evs true).findIdx isEmitEv < (exit_evs true).findIdx isAwaitAckEv ∧
    (exit_evs true).findIdx isAwaitAckEv <
      (exit_evs true).findIdx isCloseWindowEv ∧
    (exit_evs true).findIdx isCloseWindowEv <
      (exit_evs true).findIdx isIpcStopEv ∧
    run_event_handler RunEvent.exitRequested = true := by
  decide

/-- C6 counterexample: on the toggle-to-hide path the label update is not
applied before the window operation: the `window.close()` event precedes the
`set_title` event in the trace of the spawned task, so an observer sees the
window already closed while the label still reads `"Hide"`. -/
theorem c6_counterexample :
    ¬ (toggle_hide_evs.findIdx isSetLabelEv <
        toggle_hide_evs.findIdx isCloseWindowEv) := by
  decide

/-- C6 amended: on toggle-to-show the label update is applied synchronously
with window construction — immediately after the build, before the window is
titled and focused; on toggle-to-hide the label update is applied after the
window close, as the final step of the spawned task. -/
theorem c6_amended_label_update_placement :
    toggle_show_evs.findIdx isBuildWindowEv = 0 ∧
    toggle_show_evs.findIdx isSetLabelEv = 1 ∧
    toggle_show_evs.findIdx isSetLabelEv <
      toggle_show_evs.findIdx isSetFocusEv ∧
    toggle_hide_evs.findIdx isCloseWindowEv <
      toggle_hide_evs.findIdx isSetLabelEv ∧
    toggle_hide_evs.getLast? = some (TrayEv.setLabel "Show\x00") := by
  decide

/-- C10: when the tray-quit action is triggered while no main window exists,
the handshake is skipped entirely — no `exit-requested` emission, no
acknowledgement wait, no handler registration and no window close occur —
yet the channel's `stop()` is still called and the process still exits with
code 0. -/
theorem c10_quit_without_window :
    (exit_evs false).countP isEmitEv = 0 ∧
    (exit_evs false).countP isAwaitAckEv = 0 ∧
    (exit_evs false).countP isCloseWindowEv = 0 ∧
    TrayEv.register ∉ exit_evs false ∧
    TrayEv.ipcStop ∈ exit_evs false ∧
    (exit_evs false).findIdx isIpcStopEv <
      (exit_evs false).findIdx isAppExitEv ∧
    (exit_evs false).getLast? = some (TrayEv.appExit 0) := by
  decide
